import Mathlib

/-!
Shallow embedding of `src/lib/index.ts` of the facturation-pro-js client.

The only stateful part of the library is the `FacturationPro` class with its two
public fields `requestRemaining` and `lastRequest`, mutated by the axios response
interceptor installed in the constructor, by the timer armed by
`resetRequestRemainingTimeout`, and by the two token methods.  Every endpoint
method builds one HTTP request from a fixed URL template and resolves with (a
projection of) the JSON response body.

Times are modelled as integers (milliseconds since the epoch, the resolution of
a JavaScript `Date`).  JavaScript numbers reachable by the rate-limit field are
either integers or NaN (the result of `parseInt` on non-numeric input), modelled
by `JsNumber`.  The asynchronous parts are modelled as explicit state-passing:
each method is a function of the `ClientState` (the two fields) returning its
effect on that state together with the value it produces, and the interceptor
callbacks and the timer callback are separate transitions applied when the
corresponding event occurs.
-/

/-- A JavaScript number as stored in `requestRemaining`: an integer, or NaN as
produced by `parseInt` on input without leading digits. -/
inductive JsNumber where
  | nan : JsNumber
  | int : Int → JsNumber
deriving DecidableEq, Repr

/-- JavaScript `x - 1` on such a number: NaN propagates. -/
def JsNumber.sub1 : JsNumber → JsNumber
  | .nan => .nan
  | .int n => .int (n - 1)

/-- JavaScript `x >= n` where `x` is the stored number and `n` an integer:
every comparison with NaN is false. -/
def JsNumber.geInt : JsNumber → Int → Bool
  | .nan, _ => false
  | .int r, n => decide (r ≥ n)

/-- Value of a list of decimal digits, most significant first. -/
def digitsToNat (ds : List Char) : Nat :=
  ds.foldl (fun a c => a * 10 + (c.toNat - 48)) 0

/-- JavaScript `parseInt(s, 10)` on a string: skip leading whitespace, an
optional sign, then the longest prefix of decimal digits; NaN when that prefix
is empty. -/
def parseIntChars (cs : List Char) : JsNumber :=
  let cs := cs.dropWhile (fun c => c = ' ' || c = '\t' || c = '\n' || c = '\r')
  match cs with
  | '-' :: rest =>
      let ds := rest.takeWhile Char.isDigit
      if ds.isEmpty then .nan else .int (-(digitsToNat ds : Int))
  | '+' :: rest =>
      let ds := rest.takeWhile Char.isDigit
      if ds.isEmpty then .nan else .int (digitsToNat ds)
  | _ =>
      let ds := cs.takeWhile Char.isDigit
      if ds.isEmpty then .nan else .int (digitsToNat ds)

/-- JavaScript `parseInt(x, 10)` where `x` is a header entry that may be absent:
an absent entry is `undefined`, which `parseInt` turns into NaN. -/
def jsParseInt : Option String → JsNumber
  | none => .nan
  | some s => parseIntChars s.data

/-- The two mutable rate-limit fields of `FacturationPro`
(src/lib/index.ts lines 20-21).  `lastRequest` is a timestamp in
milliseconds. -/
structure ClientState where
  requestRemaining : JsNumber
  lastRequest : Int
deriving DecidableEq, Repr

/-- The field initializers: `requestRemaining = 600`,
`lastRequest = new Date()` evaluated at construction time. -/
def initState (constructionTime : Int) : ClientState :=
  { requestRemaining := .int 600, lastRequest := constructionTime }

/-- The success interceptor callback (src/lib/index.ts lines 33-39), run at
time `now`.  `headers` is `some h` when `response.headers` is truthy, and `h`
is then the `x-ratelimit-remaining` entry (`none` when absent).  The entry is
used only when it is truthy, i.e. a nonempty string; `lastRequest` is set to
the current time unconditionally.  (The call to
`resetRequestRemainingTimeout` arms a timer whose callback is the separate
transition `timerFire`.) -/
def onSuccess (s : ClientState) (headers : Option (Option String)) (now : Int) :
    ClientState :=
  let remaining :=
    match headers with
    | some (some v) => if v = "" then s.requestRemaining else parseIntChars v.data
    | _ => s.requestRemaining
  { requestRemaining := remaining, lastRequest := now }

/-- The part of `error.response` the error interceptor reads: `headers` is
`some h` when `error.response.headers` is truthy, and `h` is then the
`x-ratelimit-remaining` entry (`none` when absent). -/
structure ErrResponse where
  headers : Option (Option String)
deriving DecidableEq, Repr

/-- An axios rejection value; `payload` stands for all the remaining data
carried by the error object, so that equality of `AxiosError` values models
identity of the rejected error. -/
structure AxiosError where
  isAxiosError : Bool
  response : Option ErrResponse
  payload : Nat
deriving DecidableEq, Repr

/-- The error interceptor callback (src/lib/index.ts lines 40-46).  When
`error.isAxiosError && error.response && error.response.headers` holds,
`requestRemaining` is assigned `parseInt` of the header entry with no check
that the entry exists; `lastRequest` is not touched; the callback returns
`Promise.reject(error)` with the original error.  (It also arms the timer,
modelled by the separate transition `timerFire`.) -/
def onError (s : ClientState) (e : AxiosError) : ClientState × Except AxiosError Unit :=
  let s1 :=
    match e.isAxiosError, e.response with
    | true, some resp =>
        match resp.headers with
        | some h => { s with requestRemaining := jsParseInt h }
        | none => s
    | _, _ => s
  (s1, Except.error e)

/-- The timer callback armed by `resetRequestRemainingTimeout`
(src/lib/index.ts lines 122-129), run at time `now`.  The source computes
`new Date(this.lastRequest.setTime(this.lastRequest.getTime() + 1000 * 60))`:
`Date.setTime` mutates `this.lastRequest` in place, so every run of the
callback advances the stored `lastRequest` by 60000 ms, and the comparison is
made against that advanced value. -/
def timerFire (s : ClientState) (now : Int) : ClientState :=
  let lastRequestAddMinute := s.lastRequest + 1000 * 60
  if lastRequestAddMinute < now then
    { requestRemaining := .int 600, lastRequest := lastRequestAddMinute }
  else
    { s with lastRequest := lastRequestAddMinute }

/-- `getTokenFromUri` (src/lib/index.ts lines 49-52): decrements
`requestRemaining`, then returns whatever the delegated OAuth2 call produces
(`delegated`), which the method does not inspect and whose outcome the state
update does not depend on. -/
def getTokenFromUri (s : ClientState) (delegated : Except Nat Nat) :
    ClientState × Except Nat Nat :=
  ({ s with requestRemaining := s.requestRemaining.sub1 }, delegated)

/-- `getNewAccessToken` (src/lib/index.ts lines 54-58): builds a token object
locally, decrements `requestRemaining`, then returns whatever the delegated
`token.refresh()` call produces. -/
def getNewAccessToken (s : ClientState) (delegated : Except Nat Nat) :
    ClientState × Except Nat Nat :=
  ({ s with requestRemaining := s.requestRemaining.sub1 }, delegated)

/-- `checkFacturationProRateLimit` (src/lib/index.ts lines 97-99): returns
`this.requestRemaining >= requestNumber`; its body contains no assignment, so
the state component of the result is the input state. -/
def checkFacturationProRateLimit (s : ClientState) (requestNumber : Int) :
    Bool × ClientState :=
  (s.requestRemaining.geInt requestNumber, s)

/-- A JSON value as carried by a response body; `undefined` is included because
JavaScript property access on a value lacking the property yields it. -/
inductive Json where
  | undefined : Json
  | null : Json
  | bool : Bool → Json
  | num : Int → Json
  | str : String → Json
  | arr : List Json → Json
  | obj : List (String × Json) → Json

/-- First binding of a key in an object's field list; `undefined` when
absent. -/
def lookupField : List (String × Json) → String → Json
  | [], _ => .undefined
  | (k, v) :: rest, key => if k = key then v else lookupField rest key

/-- JavaScript property access `x[key]` on a JSON value: a lookup on objects,
`undefined` on every non-object. -/
def jsGet : Json → String → Json
  | .obj fs, key => lookupField fs key
  | _, _ => .undefined

/-- JavaScript truthiness of a JSON value. -/
def jsTruthy : Json → Bool
  | .undefined => false
  | .null => false
  | .bool b => b
  | .num n => decide (n ≠ 0)
  | .str s => decide (s ≠ "")
  | .arr _ => true
  | .obj _ => true

/-- The part of an `AxiosResponse` the endpoint result handlers read. -/
structure AxiosResponse where
  data : Json

/-- `responseHandler` (src/lib/index.ts lines 118-120): returns
`axiosResponse.data`. -/
def responseHandler (r : AxiosResponse) : Json :=
  r.data

/-- HTTP method of an issued request. -/
inductive HttpMethod where
  | get : HttpMethod
  | post : HttpMethod
deriving DecidableEq, Repr

/-- One HTTP request as issued by an endpoint method: method, full URL, and
the JSON request body when one is sent. -/
structure HttpRequest where
  method : HttpMethod
  url : String
  body : Option Json

/-- `API_BASE_URL` (src/lib/index.ts line 10). -/
def apiBaseUrl : String := "https://www.facturation.pro"

/-- `getCustomersByFirmId` (lines 60-64): the one GET request it issues,
paired with its (unchanged) state. -/
def getCustomersByFirmId (s : ClientState) (firmId apiId : Int)
    (accessToken : String) : HttpRequest × ClientState :=
  ({ method := .get,
     url := apiBaseUrl ++ "/firms/" ++ toString firmId
       ++ "/customers.json?access_token=" ++ accessToken
       ++ "&api_id=" ++ toString apiId,
     body := none }, s)

/-- `getFirms` (lines 66-70): the one GET request it issues, paired with its
(unchanged) state. -/
def getFirms (s : ClientState) (accessToken : String) :
    HttpRequest × ClientState :=
  ({ method := .get,
     url := apiBaseUrl ++ "/account.json?access_token=" ++ accessToken,
     body := none }, s)

/-- `createCustomer` (lines 72-75): the one POST request it issues, carrying
the customer as body, paired with its (unchanged) state. -/
def createCustomer (s : ClientState) (firmId : Int) (customer : Json)
    (accessToken : String) : HttpRequest × ClientState :=
  ({ method := .post,
     url := apiBaseUrl ++ "/firms/" ++ toString firmId
       ++ "/customers.json?access_token=" ++ accessToken,
     body := some customer }, s)

/-- `getInvoicesByFirmId` (lines 77-80). -/
def getInvoicesByFirmId (s : ClientState) (firmId : Int)
    (accessToken : String) : HttpRequest × ClientState :=
  ({ method := .get,
     url := apiBaseUrl ++ "/firms/" ++ toString firmId
       ++ "/invoices.json?access_token=" ++ accessToken,
     body := none }, s)

/-- `getInvoiceById` (lines 82-85). -/
def getInvoiceById (s : ClientState) (firmId invoiceId : Int)
    (accessToken : String) : HttpRequest × ClientState :=
  ({ method := .get,
     url := apiBaseUrl ++ "/firms/" ++ toString firmId
       ++ "/invoices/" ++ toString invoiceId
       ++ ".json?access_token=" ++ accessToken,
     body := none }, s)

/-- `createInvoice` (lines 87-90): POST carrying the invoice as body. -/
def createInvoice (s : ClientState) (firmId : Int) (invoice : Json)
    (accessToken : String) : HttpRequest × ClientState :=
  ({ method := .post,
     url := apiBaseUrl ++ "/firms/" ++ toString firmId
       ++ "/invoices.json?access_token=" ++ accessToken,
     body := some invoice }, s)

/-- `createCredit` (lines 92-95): `axios.post` with no data argument, so no
body is sent. -/
def createCredit (s : ClientState) (firmId invoiceId : Int)
    (accessToken : String) : HttpRequest × ClientState :=
  ({ method := .post,
     url := apiBaseUrl ++ "/firms/" ++ toString firmId
       ++ "/invoices/" ++ toString invoiceId
       ++ "/refund.json?access_token=" ++ accessToken,
     body := none }, s)

/-- `download` (lines 101-116): GET of the PDF URL; the optional
`responseType` only populates the axios config, not the request line or
body. -/
def download (s : ClientState) (firmId invoiceId : Int)
    (accessToken : String) : HttpRequest × ClientState :=
  ({ method := .get,
     url := apiBaseUrl ++ "/firms/" ++ toString firmId
       ++ "/invoices/" ++ toString invoiceId
       ++ ".pdf?original=1&access_token=" ++ accessToken,
     body := none }, s)

/-- Value `getCustomersByFirmId` resolves with: `responseHandler` applied to
the response (line 63). -/
def getCustomersByFirmIdResult (r : AxiosResponse) : Json :=
  responseHandler r

/-- Value `getFirms` resolves with (lines 67-69): `account ? account.firms : []`
where `account` is the response body. -/
def getFirmsResult (r : AxiosResponse) : Json :=
  let account := responseHandler r
  if jsTruthy account then jsGet account "firms" else Json.arr []

/-- Value `createCustomer` resolves with (line 74). -/
def createCustomerResult (r : AxiosResponse) : Json :=
  responseHandler r

/-- Value `getInvoicesByFirmId` resolves with (line 79). -/
def getInvoicesByFirmIdResult (r : AxiosResponse) : Json :=
  responseHandler r

/-- Value `getInvoiceById` resolves with (line 84). -/
def getInvoiceByIdResult (r : AxiosResponse) : Json :=
  responseHandler r

/-- Value `createInvoice` resolves with (line 89). -/
def createInvoiceResult (r : AxiosResponse) : Json :=
  responseHandler r

/-- Value `createCredit` resolves with (line 94). -/
def createCreditResult (r : AxiosResponse) : Json :=
  responseHandler r

/-- Helper: the error interceptor never touches `lastRequest`, whatever the
error's shape. -/
theorem onError_lastRequest (s : ClientState) (e : AxiosError) :
    (onError s e).1.lastRequest = s.lastRequest := by
  obtain ⟨b, ro, p⟩ := e
  cases b <;> cases ro
  case true.some resp => obtain ⟨hs⟩ := resp; cases hs <;> rfl
  all_goals rfl

/-- Claim C1 (code bug, failing evaluation).  A response at t = 0 ms arms a
timer T1, a response at t = 30000 ms sets `lastRequest := 30000` and arms a
timer T2; no further request occurs.  T1 fires at t = 60001 ms, T2 at
t = 90001 ms.  Because `Date.setTime` mutates `lastRequest` in place, T1
advances `lastRequest` from 30000 to 90000, and T2 then compares 150000 <
90001 and does not restore `requestRemaining` to 600, although 60 seconds
elapsed after the arming response with no intervening request; and the check
armed at 30000 demonstrably changes the stored `lastRequest`. -/
theorem timer_setTime_mutation_bug :
    ((timerFire (timerFire ⟨.int 100, 30000⟩ 60001) 90001).requestRemaining
        = JsNumber.int 100)
    ∧ (timerFire (⟨.int 100, 30000⟩ : ClientState) 60001).lastRequest = 90000 := by
  decide

/-- Claim C2 (counterexample).  An error response whose headers object carries
no `x-ratelimit-remaining` entry still overwrites `requestRemaining` (with
NaN), so `requestRemaining` is set by a response that does not carry the
header; and the error path leaves `lastRequest` untouched instead of updating
it to the current time. -/
theorem error_without_header_sets_remaining :
    ((onError (initState 0) ⟨true, some ⟨some none⟩, 7⟩).1.requestRemaining
        ≠ (initState 0).requestRemaining)
    ∧ (onError (initState 0) ⟨true, some ⟨some none⟩, 7⟩).1.lastRequest
        = (initState 0).lastRequest := by
  decide

/-- Claim C2 (amended).  On a success response, `requestRemaining` is set from
the header exactly when the headers object is present and the entry is a
nonempty string, and `lastRequest` is always updated to the current time; on
an error response with `isAxiosError`, a response and a headers object,
`requestRemaining` is set to `parseInt` of the (possibly absent) header entry,
and `lastRequest` is never updated on the error path. -/
theorem interceptor_update_amended (s : ClientState) (now : Int)
    (v : String) (hv : v ≠ "")
    (hdrs0 : Option (Option String)) (h0 : hdrs0 = none ∨ hdrs0 = some none)
    (e : AxiosError) (resp : ErrResponse) (h : Option String)
    (he : e.isAxiosError = true) (hr : e.response = some resp)
    (hh : resp.headers = some h)
    (e2 : AxiosError) :
    (onSuccess s (some (some v)) now).requestRemaining = parseIntChars v.data
    ∧ (onSuccess s (some (some v)) now).lastRequest = now
    ∧ (onSuccess s hdrs0 now).requestRemaining = s.requestRemaining
    ∧ (onSuccess s hdrs0 now).lastRequest = now
    ∧ (onSuccess s (some (some "")) now).requestRemaining = s.requestRemaining
    ∧ (onError s e).1.requestRemaining = jsParseInt h
    ∧ (onError s e2).1.lastRequest = s.lastRequest := by
  refine ⟨?_, rfl, ?_, ?_, ?_, ?_, onError_lastRequest s e2⟩
  · simp [onSuccess, hv]
  · rcases h0 with h0 | h0 <;> subst h0 <;> rfl
  · rcases h0 with h0 | h0 <;> subst h0 <;> rfl
  · rfl
  · obtain ⟨b, ro, p⟩ := e
    simp only at he hr
    subst he; subst hr
    simp [onError, hh]

/-- Witness for `interceptor_update_amended`, at a success response carrying
"42" at time 5 and an axios error whose headers object lacks the entry (so
that `jsParseInt none`, i.e. NaN, is stored). -/
theorem interceptor_update_amended_witness :
    (onSuccess (initState 0) (some (some "42")) 5).requestRemaining
        = parseIntChars "42".data
    ∧ (onSuccess (initState 0) (some (some "42")) 5).lastRequest = 5
    ∧ (onSuccess (initState 0) none 5).requestRemaining
        = (initState 0).requestRemaining
    ∧ (onSuccess (initState 0) none 5).lastRequest = 5
    ∧ (onSuccess (initState 0) (some (some "")) 5).requestRemaining
        = (initState 0).requestRemaining
    ∧ (onError (initState 0) ⟨true, some ⟨some none⟩, 1⟩).1.requestRemaining
        = jsParseInt none
    ∧ (onError (initState 0) ⟨false, none, 2⟩).1.lastRequest
        = (initState 0).lastRequest :=
  interceptor_update_amended (initState 0) 5 "42" (by decide)
    none (Or.inl rfl)
    ⟨true, some ⟨some none⟩, 1⟩ ⟨some none⟩ none rfl rfl rfl
    ⟨false, none, 2⟩

/-- Claim C3 (code bug, failing evaluation).  From the initial state, one
error response whose headers object lacks the `x-ratelimit-remaining` entry
(any plain HTTP failure) drives `requestRemaining` to NaN, which is not an
integer: line 42 applies `parseInt` to a possibly-undefined entry without the
presence guard the success branch has. -/
theorem error_interceptor_stores_nan :
    ((onError (initState 0) ⟨true, some ⟨some none⟩, 0⟩).1.requestRemaining
        = JsNumber.nan)
    ∧ ∀ n : Int,
        (onError (initState 0) ⟨true, some ⟨some none⟩, 0⟩).1.requestRemaining
          ≠ JsNumber.int n :=
  ⟨rfl, fun _ h => JsNumber.noConfusion h⟩

/-- Claim C4 (counterexample).  `getTokenFromUri` mutates `requestRemaining`
(600 becomes 599) although it is not the response interceptor nor the timer it
arms. -/
theorem getTokenFromUri_mutates_remaining :
    (getTokenFromUri (initState 0) (Except.ok 0)).1.requestRemaining
      ≠ (initState 0).requestRemaining := by
  decide

/-- Claim C4 (amended).  The rate-limit fields are mutated only by the
interceptor callbacks and the timer they arm, except that `getTokenFromUri`
and `getNewAccessToken` each decrement `requestRemaining` by one (leaving
`lastRequest` unchanged); `checkFacturationProRateLimit` and every endpoint
method leave both fields unchanged. -/
theorem fields_frame_amended (s : ClientState) (firmId invoiceId apiId n : Int)
    (accessToken : String) (customer invoice : Json) (d : Except Nat Nat) :
    (getCustomersByFirmId s firmId apiId accessToken).2 = s
    ∧ (getFirms s accessToken).2 = s
    ∧ (createCustomer s firmId customer accessToken).2 = s
    ∧ (getInvoicesByFirmId s firmId accessToken).2 = s
    ∧ (getInvoiceById s firmId invoiceId accessToken).2 = s
    ∧ (createInvoice s firmId invoice accessToken).2 = s
    ∧ (createCredit s firmId invoiceId accessToken).2 = s
    ∧ (download s firmId invoiceId accessToken).2 = s
    ∧ (checkFacturationProRateLimit s n).2 = s
    ∧ (getTokenFromUri s d).1
        = { s with requestRemaining := s.requestRemaining.sub1 }
    ∧ (getNewAccessToken s d).1
        = { s with requestRemaining := s.requestRemaining.sub1 } :=
  ⟨rfl, rfl, rfl, rfl, rfl, rfl, rfl, rfl, rfl, rfl, rfl⟩

/-- Claim C5.  For an integer budget `r` and every integer `n`,
`checkFacturationProRateLimit` returns true exactly when `r ≥ n`, and the call
leaves the state unchanged. -/
theorem checkRateLimit_spec (s : ClientState) (r n : Int)
    (h : s.requestRemaining = JsNumber.int r) :
    ((checkFacturationProRateLimit s n).1 = true ↔ r ≥ n)
    ∧ (checkFacturationProRateLimit s n).2 = s := by
  refine ⟨?_, rfl⟩
  simp [checkFacturationProRateLimit, h, JsNumber.geInt]

/-- Witness for `checkRateLimit_spec` at the initial state (budget 600) and
`n = 3`. -/
theorem checkRateLimit_spec_witness :
    (((checkFacturationProRateLimit (initState 0) 3).1 = true ↔ (600 : Int) ≥ 3)
    ∧ (checkFacturationProRateLimit (initState 0) 3).2 = initState 0) :=
  checkRateLimit_spec (initState 0) 600 3 rfl

/-- Claim C6 (counterexample).  On an account body `{"firms": [1]}`,
`getFirms` resolves with the `firms` array, not with the JSON body of the
response unmodified. -/
theorem getFirms_not_body :
    getFirmsResult ⟨Json.obj [("firms", Json.arr [Json.num 1])]⟩
      ≠ responseHandler ⟨Json.obj [("firms", Json.arr [Json.num 1])]⟩ :=
  fun h => Json.noConfusion h

/-- Claim C6 (amended).  Every listed endpoint method except `getFirms`
resolves with exactly the JSON body of the HTTP response, unmodified;
`getFirms` resolves with the `firms` field of the body when the body is
truthy and with `[]` otherwise. -/
theorem endpoint_results_amended (r : AxiosResponse) :
    getCustomersByFirmIdResult r = responseHandler r
    ∧ createCustomerResult r = responseHandler r
    ∧ getInvoicesByFirmIdResult r = responseHandler r
    ∧ getInvoiceByIdResult r = responseHandler r
    ∧ createInvoiceResult r = responseHandler r
    ∧ createCreditResult r = responseHandler r
    ∧ getFirmsResult r =
        (if jsTruthy (responseHandler r) then jsGet (responseHandler r) "firms"
         else Json.arr []) :=
  ⟨rfl, rfl, rfl, rfl, rfl, rfl, rfl⟩

/-- Claim C7.  Each endpoint method issues exactly one HTTP request, whose
method, URL template, `access_token` query parameter and body are as the spec
states; in particular `getInvoiceById` issues
GET https://www.facturation.pro/firms/{firmId}/invoices/{invoiceId}.json
with `access_token` appended. -/
theorem endpoint_requests_spec (s : ClientState) (firmId invoiceId apiId : Int)
    (accessToken : String) (customer invoice : Json) :
    (getCustomersByFirmId s firmId apiId accessToken).1 =
      { method := HttpMethod.get,
        url := "https://www.facturation.pro/firms/" ++ toString firmId
          ++ "/customers.json?access_token=" ++ accessToken
          ++ "&api_id=" ++ toString apiId,
        body := none }
    ∧ (getFirms s accessToken).1 =
      { method := HttpMethod.get,
        url := "https://www.facturation.pro/account.json?access_token="
          ++ accessToken,
        body := none }
    ∧ (createCustomer s firmId customer accessToken).1 =
      { method := HttpMethod.post,
        url := "https://www.facturation.pro/firms/" ++ toString firmId
          ++ "/customers.json?access_token=" ++ accessToken,
        body := some customer }
    ∧ (getInvoicesByFirmId s firmId accessToken).1 =
      { method := HttpMethod.get,
        url := "https://www.facturation.pro/firms/" ++ toString firmId
          ++ "/invoices.json?access_token=" ++ accessToken,
        body := none }
    ∧ (getInvoiceById s firmId invoiceId accessToken).1 =
      { method := HttpMethod.get,
        url := "https://www.facturation.pro/firms/" ++ toString firmId
          ++ "/invoices/" ++ toString invoiceId
          ++ ".json?access_token=" ++ accessToken,
        body := none }
    ∧ (createInvoice s firmId invoice accessToken).1 =
      { method := HttpMethod.post,
        url := "https://www.facturation.pro/firms/" ++ toString firmId
          ++ "/invoices.json?access_token=" ++ accessToken,
        body := some invoice }
    ∧ (createCredit s firmId invoiceId accessToken).1 =
      { method := HttpMethod.post,
        url := "https://www.facturation.pro/firms/" ++ toString firmId
          ++ "/invoices/" ++ toString invoiceId
          ++ "/refund.json?access_token=" ++ accessToken,
        body := none }
    ∧ (download s firmId invoiceId accessToken).1 =
      { method := HttpMethod.get,
        url := "https://www.facturation.pro/firms/" ++ toString firmId
          ++ "/invoices/" ++ toString invoiceId
          ++ ".pdf?original=1&access_token=" ++ accessToken,
        body := none } :=
  ⟨rfl, rfl, rfl, rfl, rfl, rfl, rfl, rfl⟩

/-- Claim C8.  The error interceptor always returns `Promise.reject` of the
very error it received: the caller's promise is rejected with the original
error, never swallowed or substituted. -/
theorem error_reraises_original (s : ClientState) (e : AxiosError) :
    (onError s e).2 = Except.error e :=
  rfl

/-- Claim C9.  `getTokenFromUri` and `getNewAccessToken` each decrement an
integer `requestRemaining` by exactly 1, leave `lastRequest` unchanged, and
pass the delegated OAuth2 outcome through unchanged whether it succeeded or
failed. -/
theorem token_methods_decrement (s : ClientState) (r : Int)
    (h : s.requestRemaining = JsNumber.int r) (d1 d2 : Except Nat Nat) :
    (getTokenFromUri s d1).1.requestRemaining = JsNumber.int (r - 1)
    ∧ (getTokenFromUri s d1).1.lastRequest = s.lastRequest
    ∧ (getTokenFromUri s d1).2 = d1
    ∧ (getNewAccessToken s d2).1.requestRemaining = JsNumber.int (r - 1)
    ∧ (getNewAccessToken s d2).1.lastRequest = s.lastRequest
    ∧ (getNewAccessToken s d2).2 = d2 := by
  simp [getTokenFromUri, getNewAccessToken, h, JsNumber.sub1]

/-- Witness for `token_methods_decrement` at the initial state, with a failed
delegated call for `getTokenFromUri` and a successful one for
`getNewAccessToken`. -/
theorem token_methods_decrement_witness :
    (getTokenFromUri (initState 0) (Except.error 5)).1.requestRemaining
        = JsNumber.int (600 - 1)
    ∧ (getTokenFromUri (initState 0) (Except.error 5)).1.lastRequest
        = (initState 0).lastRequest
    ∧ (getTokenFromUri (initState 0) (Except.error 5)).2 = Except.error 5
    ∧ (getNewAccessToken (initState 0) (Except.ok 9)).1.requestRemaining
        = JsNumber.int (600 - 1)
    ∧ (getNewAccessToken (initState 0) (Except.ok 9)).1.lastRequest
        = (initState 0).lastRequest
    ∧ (getNewAccessToken (initState 0) (Except.ok 9)).2 = Except.ok 9 :=
  token_methods_decrement (initState 0) 600 rfl (Except.error 5) (Except.ok 9)

/-- Claim C10.  `getFirms` resolves with the `firms` field of the account body
whenever the body is truthy, and with `[]` whenever the body is absent or
falsy; the result function is total, so a body lacking data never causes a
rejection. -/
theorem getFirms_result_spec (r : AxiosResponse) :
    (jsTruthy (responseHandler r) = true →
        getFirmsResult r = jsGet (responseHandler r) "firms")
    ∧ (jsTruthy (responseHandler r) = false → getFirmsResult r = Json.arr []) := by
  constructor <;> intro h <;> simp [getFirmsResult, h]

/-- Witness for `getFirms_result_spec`: a truthy account body with a `firms`
array, and a null body. -/
theorem getFirms_result_spec_witness :
    getFirmsResult ⟨Json.obj [("firms", Json.arr [])]⟩
        = jsGet (responseHandler ⟨Json.obj [("firms", Json.arr [])]⟩) "firms"
    ∧ getFirmsResult ⟨Json.null⟩ = Json.arr [] :=
  ⟨(getFirms_result_spec ⟨Json.obj [("firms", Json.arr [])]⟩).1 rfl,
   (getFirms_result_spec ⟨Json.null⟩).2 rfl⟩
